import Mathlib

/-!
A shallow embedding of the recovery/load computation engine of the
`recovr` repository (core/logic/recovery.ts and core/logic/load.ts plus the
EPOC / recovery-modifier module), together with theorems settling the
frozen claims about it.

Conventions of the embedding:
* JavaScript `number` is modelled by `ℚ` wherever the source computes with
  rational arithmetic only; results that pass through `Math.exp` live in `ℝ`.
* Timestamps (ISO strings / `Date` values in the source) are modelled as
  rational milliseconds since the epoch; `new Date()` / `Date.now()` become an
  explicit `now` parameter.
* Optional fields become `Option ℚ`; JavaScript truthiness on a numeric
  optional (`if (x)`) is modelled as "present and nonzero".
* `array.filter(Boolean)` over `(number | undefined)[]` keeps exactly the
  defined, nonzero entries.
-/

/-- Readiness status, `RecoveryState['status']` in the source. -/
inductive Status where
  | green
  | yellow
  | red
deriving DecidableEq

/-- Which scoring strategy produced a load score (`WorkoutLoadResult['method']`). -/
inductive Method where
  | zones
  | trimp
  | rpe
deriving DecidableEq

/-- Biological sex used by the TRIMP constants (`type Sex`). -/
inductive Sex where
  | male
  | female
deriving DecidableEq

/-- Minutes spent in each of the five heart-rate zones. -/
structure ZoneMinutes where
  z1 : ℚ
  z2 : ℚ
  z3 : ℚ
  z4 : ℚ
  z5 : ℚ
deriving DecidableEq

/-- A raw heart-rate sample (`interface HeartRateSample`); timestamps in ms. -/
structure HeartRateSample where
  startDate : ℚ
  endDate : ℚ
  value : ℚ
deriving DecidableEq

/-- Five zone bands, each a `[lower, upper]` pair (`interface ZoneConfig`). -/
structure ZoneConfig where
  z1 : ℚ × ℚ
  z2 : ℚ × ℚ
  z3 : ℚ × ℚ
  z4 : ℚ × ℚ
  z5 : ℚ × ℚ
deriving DecidableEq

/-- One day of biometric metrics (`DailyMetrics` in core/models/types, per the
data model: optional fields are absent when no sample exists that day). -/
structure DailyMetrics where
  date : ℚ
  sleepInMinutes : Option ℚ
  hrvSdn : Option ℚ
  restingHeartRate : Option ℚ
deriving DecidableEq

/-- A completed workout (`WorkoutSummary`): timestamps in ms. -/
structure WorkoutSummary where
  id : String
  type : Option String
  startTime : ℚ
  endTime : ℚ
  durationInSeconds : ℚ
  zoneMinutes : ZoneMinutes
  loadScore : ℚ
deriving DecidableEq

/-- A recovery snapshot (`RecoveryState`); the explanation breakdown is
flattened into the last five fields. -/
structure RecoveryState where
  timestamp : ℚ
  debtScore : ℚ
  recoveryHoursRemaining : ℚ
  readyForHardTrainingAt : Option ℚ
  status : Status
  lastWorkoutLoad : Option ℚ
  sleepModifier : ℚ
  hrvModifier : ℚ
  rhrModifier : ℚ
  learningModifier : ℚ
deriving DecidableEq

/-- `clamp(value, min, max) = Math.max(min, Math.min(max, value))`. -/
def clampQ (value lo hi : ℚ) : ℚ := max lo (min hi value)

/-- `array.slice(-n)`: the last `n` elements. -/
def takeLast {α : Type} (n : Nat) (l : List α) : List α := l.drop (l.length - n)

/-- `array.map(...).filter(Boolean)` over optional numbers: the defined,
nonzero values, in order. -/
def truthyVals (l : List (Option ℚ)) : List ℚ :=
  (l.filterMap id).filter (fun v => decide (v ≠ 0))

/-- Ascending insertion used to model `array.sort((a, b) => a - b)`. -/
def insertSorted (x : ℚ) : List ℚ → List ℚ
  | [] => [x]
  | y :: ys => if x ≤ y then x :: y :: ys else y :: insertSorted x ys

/-- Ascending sort of a list of rationals. -/
def sortAsc (l : List ℚ) : List ℚ := l.foldr insertSorted []

/-- The `median` helper shared by recovery.ts and the modifier module: 0 on an
empty list, middle element on odd length, mean of the two central elements on
even length. -/
def median (l : List ℚ) : ℚ :=
  if l = [] then 0
  else
    let sorted := sortAsc l
    let mid := sorted.length / 2
    if sorted.length % 2 ≠ 0 then sorted.getD mid 0
    else (sorted.getD (mid - 1) 0 + sorted.getD mid 0) / 2

/-- `createEmptyZones()`. -/
def createEmptyZones : ZoneMinutes := ⟨0, 0, 0, 0, 0⟩

/-- Total minutes across the five zones of a `ZoneMinutes` value. -/
def totalZones (zm : ZoneMinutes) : ℚ := zm.z1 + zm.z2 + zm.z3 + zm.z4 + zm.z5

/-- `HR_ZONE_WEIGHTS` (core/logic/recovery.ts). -/
def HR_ZONE_WEIGHTS : ZoneMinutes := ⟨1, 2, 3, 5, 8⟩

/-- `BASE_RECOVERY_RATE_PER_HOUR` (load points recovered per hour). -/
def BASE_RECOVERY_RATE_PER_HOUR : ℚ := 6

/-- `DEBT_THRESHOLDS.RED`. -/
def DEBT_THRESHOLDS_RED : ℚ := 25

/-- `DEBT_THRESHOLDS.YELLOW`. -/
def DEBT_THRESHOLDS_YELLOW : ℚ := 10

/-- `calculateWorkoutLoad`: zone-weighted minutes. -/
def calculateWorkoutLoad (zm : ZoneMinutes) : ℚ :=
  zm.z1 * HR_ZONE_WEIGHTS.z1 + zm.z2 * HR_ZONE_WEIGHTS.z2 +
    zm.z3 * HR_ZONE_WEIGHTS.z3 + zm.z4 * HR_ZONE_WEIGHTS.z4 +
    zm.z5 * HR_ZONE_WEIGHTS.z5

/-- `DEFAULT_ZONE_PERCENTAGES` (core/logic/load.ts). -/
def DEFAULT_ZONE_PERCENTAGES : ZoneConfig :=
  ⟨(0.5, 0.6), (0.6, 0.7), (0.7, 0.8), (0.8, 0.9), (0.9, 1)⟩

/-- `resolveZoneConfig`: an explicit config wins, otherwise the default
percentages are scaled by `hrMax`. -/
def resolveZoneConfig (hrMax : ℚ) (zoneConfig : Option ZoneConfig) : ZoneConfig :=
  match zoneConfig with
  | some c => c
  | none =>
      ⟨(hrMax * DEFAULT_ZONE_PERCENTAGES.z1.1, hrMax * DEFAULT_ZONE_PERCENTAGES.z1.2),
       (hrMax * DEFAULT_ZONE_PERCENTAGES.z2.1, hrMax * DEFAULT_ZONE_PERCENTAGES.z2.2),
       (hrMax * DEFAULT_ZONE_PERCENTAGES.z3.1, hrMax * DEFAULT_ZONE_PERCENTAGES.z3.2),
       (hrMax * DEFAULT_ZONE_PERCENTAGES.z4.1, hrMax * DEFAULT_ZONE_PERCENTAGES.z4.2),
       (hrMax * DEFAULT_ZONE_PERCENTAGES.z5.1, hrMax * DEFAULT_ZONE_PERCENTAGES.z5.2)⟩

/-- Per-sample minutes: `Math.max(0, (end - start) / 60000) || 1`, i.e. the
non-negative duration in minutes, with 1 substituted when that value is 0. -/
def sampleMinutes (s : HeartRateSample) : ℚ :=
  if max 0 ((s.endDate - s.startDate) / 60000) = 0 then 1
  else max 0 ((s.endDate - s.startDate) / 60000)

/-- One step of the `samples.forEach` loop in `calculateZoneMinutesFromSamples`:
the sample's minutes are added to the first zone (checked from z5 down) whose
lower bound the bpm reaches. -/
def addSample (cfg : ZoneConfig) (acc : ZoneMinutes) (s : HeartRateSample) : ZoneMinutes :=
  if cfg.z5.1 ≤ s.value then { acc with z5 := acc.z5 + sampleMinutes s }
  else if cfg.z4.1 ≤ s.value then { acc with z4 := acc.z4 + sampleMinutes s }
  else if cfg.z3.1 ≤ s.value then { acc with z3 := acc.z3 + sampleMinutes s }
  else if cfg.z2.1 ≤ s.value then { acc with z2 := acc.z2 + sampleMinutes s }
  else if cfg.z1.1 ≤ s.value then { acc with z1 := acc.z1 + sampleMinutes s }
  else acc

/-- `calculateZoneMinutesFromSamples` (the spec's `classifyZones`). -/
def calculateZoneMinutesFromSamples (samples : List HeartRateSample) (hrMax : ℚ)
    (zoneConfig : Option ZoneConfig) : ZoneMinutes :=
  if samples = [] ∨ hrMax ≤ 0 then createEmptyZones
  else samples.foldl (addSample (resolveZoneConfig hrMax zoneConfig)) createEmptyZones

/-- `SPORT_MULTIPLIERS` lookup by key; `none` for a key that is not in the
table (the record's own `default` entry is reached through `??` instead). -/
def SPORT_MULTIPLIERS (key : String) : Option ℚ :=
  if key = "running" then some 1
  else if key = "cycling" then some 0.9
  else if key = "swimming" then some 0.95
  else if key = "strength" then some 0.7
  else if key = "hiit" then some 1.1
  else none

/-- `SPORT_MULTIPLIERS.default`. -/
def SPORT_MULTIPLIERS_default : ℚ := 0.85

/-- `DEFAULT_RPE`. -/
def DEFAULT_RPE : ℚ := 5

/-- `resolveSportMultiplier`: falsy (absent or empty) workout type falls back to
the default, otherwise the lower-cased key is looked up with `?? default`.
An absent key and the empty string both resolve to the default, as in the
source. -/
def resolveSportMultiplier (workoutType : Option String) : ℚ :=
  match workoutType with
  | none => SPORT_MULTIPLIERS_default
  | some t => (SPORT_MULTIPLIERS t.toLower).getD SPORT_MULTIPLIERS_default

/-- `calculateTrimpLoad`. The TypeScript default parameter `sex: Sex = 'male'`
is modelled by an `Option Sex` argument resolved with `getD .male`. The
intensity is rational; the Banister weighting needs `Real.exp`. -/
noncomputable def calculateTrimpLoad (durationMinutes avgHeartRate restingHeartRate hrMax : ℚ)
    (sex : Option Sex) : ℝ :=
  if durationMinutes ≤ 0 ∨ hrMax - restingHeartRate ≤ 0 then 0
  else
    let intensity : ℚ :=
      min 1 (max 0 ((avgHeartRate - restingHeartRate) / (hrMax - restingHeartRate)))
    let weighting : ℝ :=
      if sex.getD Sex.male = Sex.female then 0.86 * Real.exp (1.67 * (intensity : ℝ))
      else 0.64 * Real.exp (1.92 * (intensity : ℝ))
    (durationMinutes : ℝ) * (intensity : ℝ) * weighting

/-- `calculateRpeLoad`. -/
def calculateRpeLoad (durationMinutes rpe : ℚ) (workoutType : Option String) : ℚ :=
  if durationMinutes ≤ 0 then 0
  else durationMinutes * (rpe / 10) * 10 * resolveSportMultiplier workoutType

/-- `interface WorkoutLoadInputs`. -/
structure WorkoutLoadInputs where
  zoneMinutes : Option ZoneMinutes
  heartRateSamples : Option (List HeartRateSample)
  hrMax : Option ℚ
  zoneConfig : Option ZoneConfig
  durationMinutes : ℚ
  avgHeartRate : Option ℚ
  restingHeartRate : Option ℚ
  sex : Option Sex
  rpe : Option ℚ
  workoutType : Option String

/-- `interface WorkoutLoadResult`. -/
structure WorkoutLoadResult where
  loadScore : ℝ
  zoneMinutes : ZoneMinutes
  method : Method

/-- `calculateWorkoutLoadFromInputs` (the spec's `scoreWorkoutLoad`).
JavaScript truthiness in the guards: `if (zoneMinutes)` is presence of the
object; `if (heartRateSamples && hrMax)` is presence of the array (even an
empty one) together with `hrMax` present and nonzero; the TRIMP guard tests
the three fields against `undefined` only. -/
noncomputable def calculateWorkoutLoadFromInputs (inputs : WorkoutLoadInputs) : WorkoutLoadResult :=
  match inputs.zoneMinutes with
  | some zm => ⟨((calculateWorkoutLoad zm : ℚ) : ℝ), zm, Method.zones⟩
  | none =>
    if inputs.heartRateSamples.isSome ∧ inputs.hrMax.getD 0 ≠ 0 then
      let derivedZones :=
        calculateZoneMinutesFromSamples (inputs.heartRateSamples.getD [])
          (inputs.hrMax.getD 0) inputs.zoneConfig
      ⟨((calculateWorkoutLoad derivedZones : ℚ) : ℝ), derivedZones, Method.zones⟩
    else if inputs.avgHeartRate.isSome ∧ inputs.restingHeartRate.isSome ∧ inputs.hrMax.isSome then
      ⟨calculateTrimpLoad inputs.durationMinutes (inputs.avgHeartRate.getD 0)
          (inputs.restingHeartRate.getD 0) (inputs.hrMax.getD 0) inputs.sex,
        createEmptyZones, Method.trimp⟩
    else
      ⟨((calculateRpeLoad inputs.durationMinutes (inputs.rpe.getD DEFAULT_RPE)
            inputs.workoutType : ℚ) : ℝ),
        createEmptyZones, Method.rpe⟩

/-- `type EpocConfig`. -/
structure EpocConfig where
  a : ℚ
  fInt : ℚ
  vo2Max : ℚ
  k : ℚ

/-- `DEFAULT_CONFIG` of the EPOC module. -/
def DEFAULT_CONFIG : EpocConfig := ⟨3.5, 1, 40, 1.2⟩

/-- `ZONE_INTENSITIES` of the EPOC module, as per-zone values. -/
def ZONE_INTENSITIES : ZoneMinutes := ⟨0.55, 0.65, 0.75, 0.85, 0.95⟩

/-- `TYPE_INTENSITY` lookup (the record's `default` entry is reached through
`??` and modelled by `TYPE_INTENSITY_default`). -/
def TYPE_INTENSITY (key : String) : Option ℚ :=
  if key = "running" then some 0.75
  else if key = "cycling" then some 0.7
  else if key = "swimming" then some 0.72
  else if key = "strength" then some 0.6
  else if key = "hiit" then some 0.85
  else if key = "walking" then some 0.55
  else none

/-- `TYPE_INTENSITY.default`. -/
def TYPE_INTENSITY_default : ℚ := 0.65

/-- `estimateIntensityRatio` of the EPOC module: minutes-weighted zone
intensity clamped to [0.4, 1], falling back to a workout-type lookup when no
zone minutes are recorded. -/
def estimateIntensityRatioQ (w : WorkoutSummary) : ℚ :=
  if 0 < totalZones w.zoneMinutes then
    clampQ
      ((w.zoneMinutes.z1 * ZONE_INTENSITIES.z1 + w.zoneMinutes.z2 * ZONE_INTENSITIES.z2 +
          w.zoneMinutes.z3 * ZONE_INTENSITIES.z3 + w.zoneMinutes.z4 * ZONE_INTENSITIES.z4 +
          w.zoneMinutes.z5 * ZONE_INTENSITIES.z5) / totalZones w.zoneMinutes)
      0.4 1
  else
    match w.type with
    | none => TYPE_INTENSITY_default
    | some t => (TYPE_INTENSITY t.toLower).getD TYPE_INTENSITY_default

/-- `estimateEpocTotal`: `durationMinutes × fInt × e^(a × intensityRatio)`,
0 for non-positive duration (the source's `Number.isFinite` test is
vacuous over `ℚ`). -/
noncomputable def estimateEpocTotal (w : WorkoutSummary) (config : EpocConfig) : ℝ :=
  if w.durationInSeconds / 60 ≤ 0 then 0
  else
    ((w.durationInSeconds / 60 : ℚ) : ℝ) *
      ((config.fInt : ℝ) * Real.exp ((config.a : ℝ) * (estimateIntensityRatioQ w : ℝ)))

/-- `estimateRecoveryHoursAdded` (the spec's `estimateEpocRecoveryAdded`). -/
noncomputable def estimateRecoveryHoursAdded (w : WorkoutSummary) (config : EpocConfig) : ℝ :=
  if config.vo2Max ≤ 0 ∨ config.k ≤ 0 then 0
  else estimateEpocTotal w config / ((config.vo2Max : ℝ) * (config.k : ℝ))

/-- `estimateRecoveryHoursTotal`. -/
noncomputable def estimateRecoveryHoursTotal (workouts : List WorkoutSummary) (since : ℚ)
    (config : EpocConfig) : ℝ :=
  (workouts.filter (fun w => decide (since ≤ w.endTime))).foldl
    (fun sum w => sum + estimateRecoveryHoursAdded w config) 0

/-- `estimateRecoveryRemaining` (the spec's `estimateEpocRecoveryRemaining`);
`Date.now()` is the explicit `now` (ms). The source's `Number.isFinite(endMs)`
test is vacuous over `ℚ`. -/
noncomputable def estimateRecoveryRemaining (now : ℚ) (workouts : List WorkoutSummary)
    (since : ℚ) (modifier : ℚ) (config : EpocConfig) : ℝ :=
  (workouts.filter (fun w => decide (since ≤ w.endTime))).foldl
    (fun sum w =>
      sum + max 0 (estimateRecoveryHoursAdded w config -
        ((max 0 ((now - w.endTime) / 3600000) : ℚ) : ℝ) * (modifier : ℝ))) 0

/-- The sleep modifier of `calculateNewRecoveryState` step 3: applies only
when the latest metric's sleep value is truthy and the baseline positive;
at or above the baseline (`GOOD_THRESHOLD_RATIO` 1.0) it is 1.15, below 80%
of the baseline 0.85, otherwise 1. -/
def sleepModifierOf (latest : Option ℚ) (baseline : ℚ) : ℚ :=
  match latest with
  | none => 1
  | some v =>
    if v ≠ 0 ∧ 0 < baseline then
      if baseline * 1.0 ≤ v then 1.15
      else if v < baseline * 0.8 then 0.85
      else 1
    else 1

/-- The HRV modifier: above 110% of the baseline 1.1, below 90% of it 0.9,
otherwise 1 (only when the latest value is truthy and the baseline positive). -/
def hrvModifierOf (latest : Option ℚ) (baseline : ℚ) : ℚ :=
  match latest with
  | none => 1
  | some v =>
    if v ≠ 0 ∧ 0 < baseline then
      if baseline * 1.1 < v then 1.1
      else if v < baseline * 0.9 then 0.9
      else 1
    else 1

/-- The RHR modifier: above 105% of the baseline 0.9 (high RHR is bad), below
95% of it 1.05, otherwise 1. -/
def rhrModifierOf (latest : Option ℚ) (baseline : ℚ) : ℚ :=
  match latest with
  | none => 1
  | some v =>
    if v ≠ 0 ∧ 0 < baseline then
      if baseline * 1.05 < v then 0.9
      else if v < baseline * 0.95 then 1.05
      else 1
    else 1

/-- `LEARNING_PHASE_DAYS`. -/
def LEARNING_PHASE_DAYS : Nat := 7

/-- `LEARNING_PHASE_RECOVERY_MODIFIER`, applied while metric data exists but
covers fewer than `LEARNING_PHASE_DAYS` days. -/
def learningModifierOf (n : Nat) : ℚ :=
  if 0 < n ∧ n < LEARNING_PHASE_DAYS then 1.15 else 1

/-- Sleep baseline: median of the truthy sleep values of the last 28 days. -/
def sleepBaselineOf (dailyMetrics : List DailyMetrics) : ℚ :=
  median (truthyVals ((takeLast 28 dailyMetrics).map (·.sleepInMinutes)))

/-- HRV baseline: median of the truthy HRV values of the last 28 days. -/
def hrvBaselineOf (dailyMetrics : List DailyMetrics) : ℚ :=
  median (truthyVals ((takeLast 28 dailyMetrics).map (·.hrvSdn)))

/-- RHR baseline: median of the truthy resting-heart-rate values of the last
28 days. -/
def rhrBaselineOf (dailyMetrics : List DailyMetrics) : ℚ :=
  median (truthyVals ((takeLast 28 dailyMetrics).map (·.restingHeartRate)))

/-- Steps 2–5 of `calculateNewRecoveryState`:
`baseRate × sleepMod × hrvMod × rhrMod × learningMod`. -/
def effectiveRecoveryRate (dailyMetrics : List DailyMetrics) : ℚ :=
  BASE_RECOVERY_RATE_PER_HOUR *
    sleepModifierOf (dailyMetrics.getLast?.bind (·.sleepInMinutes)) (sleepBaselineOf dailyMetrics) *
    hrvModifierOf (dailyMetrics.getLast?.bind (·.hrvSdn)) (hrvBaselineOf dailyMetrics) *
    rhrModifierOf (dailyMetrics.getLast?.bind (·.restingHeartRate)) (rhrBaselineOf dailyMetrics) *
    learningModifierOf dailyMetrics.length

/-- Status rule of `calculateNewRecoveryState` step 7, with the two thresholds
as parameters: green at or below the yellow threshold, yellow at or below the
red threshold, red above. -/
def statusOf (yellowMax redMax debt : ℚ) : Status :=
  if debt ≤ yellowMax then Status.green
  else if debt ≤ redMax then Status.yellow
  else Status.red

/-- `calculateNewRecoveryState` (the spec's `advanceRecoveryState`);
`new Date()` is the explicit `now` (ms since epoch). -/
def calculateNewRecoveryState (now : ℚ) (previousState : RecoveryState)
    (dailyMetrics : List DailyMetrics) (newWorkout : Option WorkoutSummary) : RecoveryState :=
  let hoursPassed := max 0 ((now - previousState.timestamp) / 3600000)
  let sMod :=
    sleepModifierOf (dailyMetrics.getLast?.bind (·.sleepInMinutes)) (sleepBaselineOf dailyMetrics)
  let hMod := hrvModifierOf (dailyMetrics.getLast?.bind (·.hrvSdn)) (hrvBaselineOf dailyMetrics)
  let rMod :=
    rhrModifierOf (dailyMetrics.getLast?.bind (·.restingHeartRate)) (rhrBaselineOf dailyMetrics)
  let lMod := learningModifierOf dailyMetrics.length
  let recoveredDebt := hoursPassed * effectiveRecoveryRate dailyMetrics
  let currentDebt :=
    max 0 (previousState.debtScore - recoveredDebt) + (newWorkout.map (·.loadScore)).getD 0
  let hardTrainingDebt := max 0 (currentDebt - DEBT_THRESHOLDS_YELLOW)
  let recoveryHoursRemaining := hardTrainingDebt / effectiveRecoveryRate dailyMetrics
  { timestamp := now
    debtScore := currentDebt
    recoveryHoursRemaining := recoveryHoursRemaining
    readyForHardTrainingAt :=
      if 0 < recoveryHoursRemaining then some (now + recoveryHoursRemaining * 3600000) else none
    status := statusOf DEBT_THRESHOLDS_YELLOW DEBT_THRESHOLDS_RED currentDebt
    lastWorkoutLoad := newWorkout.map (·.loadScore)
    sleepModifier := sMod
    hrvModifier := hMod
    rhrModifier := rMod
    learningModifier := lMod }

/-- Result record of `calculateRecoveryModifier`. -/
structure RecoveryModifierResult where
  modifier : ℚ
  sleepFactor : ℚ
  hrvFactor : ℚ
  rhrFactor : ℚ
  stressFactor : ℚ
  recentLoad : ℤ

/-- The reference cap (300) dividing the recent 3-day load in the stress
factor of `calculateRecoveryModifier`. -/
def STRESS_LOAD_CAP : ℚ := 300

/-- The sum of load scores of workouts started at or after `threeDaysAgo`
(`recentLoad` in `calculateRecoveryModifier`). -/
def recentLoadOf (threeDaysAgo : ℚ) (workoutSummaries : List WorkoutSummary) : ℚ :=
  ((workoutSummaries.filter (fun w => decide (threeDaysAgo ≤ w.startTime))).map
    (·.loadScore)).sum

/-- `calculateRecoveryModifier` (the spec's `computeRecoveryModifier`);
`new Date()` is the explicit `now` (ms), and the source's
`setDate(getDate() - 3)` is modelled as exactly 72 hours earlier. -/
def calculateRecoveryModifier (now : ℚ) (dailyMetrics : List DailyMetrics)
    (workoutSummaries : List WorkoutSummary) : RecoveryModifierResult :=
  let recentMetrics := takeLast 7 dailyMetrics
  let latest := recentMetrics.getLast?
  let sleepBaseline := median (truthyVals (recentMetrics.map (·.sleepInMinutes)))
  let hrvBaseline := median (truthyVals (recentMetrics.map (·.hrvSdn)))
  let rhrBaseline := median (truthyVals (recentMetrics.map (·.restingHeartRate)))
  let sleepMinutes := (latest.bind (·.sleepInMinutes)).getD 0
  let hrv := (latest.bind (·.hrvSdn)).getD 0
  let rhr := (latest.bind (·.restingHeartRate)).getD 0
  let sleepFactor :=
    if 0 < sleepBaseline then
      if 120 ≤ sleepMinutes / sleepBaseline * 100 then 1.5
      else if 100 ≤ sleepMinutes / sleepBaseline * 100 then 1.2
      else if sleepMinutes / sleepBaseline * 100 < 70 then 0.5
      else 1
    else 1
  let hrvFactor :=
    if 0 < hrvBaseline then
      if hrvBaseline * 1.05 ≤ hrv then 1.2
      else if hrv ≤ hrvBaseline * 0.8 then 0.2
      else 1
    else 1
  let rhrFactor :=
    if 0 < rhrBaseline then
      if rhr ≤ rhrBaseline * 0.95 then 1.1
      else if rhrBaseline * 1.05 ≤ rhr then 0.8
      else 1
    else 1
  let recentLoad := recentLoadOf (now - 3 * 86400000) workoutSummaries
  let stressFactor := clampQ (1 - recentLoad / STRESS_LOAD_CAP) 0.2 1
  { modifier := (sleepFactor + hrvFactor + rhrFactor + stressFactor) / 4
    sleepFactor := sleepFactor
    hrvFactor := hrvFactor
    rhrFactor := rhrFactor
    stressFactor := stressFactor
    recentLoad := round recentLoad }

/-- The lowest of the five zone floors (classification lower bounds); a sample
is assigned some zone exactly when its bpm reaches this. -/
def minFloor (cfg : ZoneConfig) : ℚ :=
  min cfg.z5.1 (min cfg.z4.1 (min cfg.z3.1 (min cfg.z2.1 cfg.z1.1)))

/-- A sample lands in z5: the first test of the classification chain. -/
def inZone5 (cfg : ZoneConfig) (s : HeartRateSample) : Bool :=
  decide (cfg.z5.1 ≤ s.value)

/-- A sample lands in z4: the z5 test failed and the z4 floor is reached. -/
def inZone4 (cfg : ZoneConfig) (s : HeartRateSample) : Bool :=
  !decide (cfg.z5.1 ≤ s.value) && decide (cfg.z4.1 ≤ s.value)

/-- A sample lands in z3: the z5 and z4 tests failed and the z3 floor is
reached. -/
def inZone3 (cfg : ZoneConfig) (s : HeartRateSample) : Bool :=
  !decide (cfg.z5.1 ≤ s.value) && !decide (cfg.z4.1 ≤ s.value) &&
    decide (cfg.z3.1 ≤ s.value)

/-- A sample lands in z2: the z5–z3 tests failed and the z2 floor is
reached. -/
def inZone2 (cfg : ZoneConfig) (s : HeartRateSample) : Bool :=
  !decide (cfg.z5.1 ≤ s.value) && !decide (cfg.z4.1 ≤ s.value) &&
    !decide (cfg.z3.1 ≤ s.value) && decide (cfg.z2.1 ≤ s.value)

/-- A sample lands in z1: the z5–z2 tests failed and the z1 floor is
reached. -/
def inZone1 (cfg : ZoneConfig) (s : HeartRateSample) : Bool :=
  !decide (cfg.z5.1 ≤ s.value) && !decide (cfg.z4.1 ≤ s.value) &&
    !decide (cfg.z3.1 ≤ s.value) && !decide (cfg.z2.1 ≤ s.value) &&
    decide (cfg.z1.1 ≤ s.value)

/-- A previous recovery snapshot used as a concrete instance in witnesses:
debt 50 at time 0 with neutral breakdown. -/
def prevStateExample : RecoveryState :=
  ⟨0, 50, 0, none, Status.green, none, 1, 1, 1, 1⟩

/-- A one-minute heart-rate sample at 150 bpm used in witnesses. -/
def sampleExample : HeartRateSample := ⟨0, 60000, 150⟩

/-- Scoring inputs with only a (negative) duration supplied, used to exercise
the RPE fallback. -/
def rpeOnlyInputs : WorkoutLoadInputs :=
  ⟨none, none, none, none, -10, none, none, none, none, none⟩

/-- Scoring inputs with heart-rate samples, a negative max HR and no explicit
zone minutes, used to exercise the sample-derived zones branch. -/
def negativeHrMaxInputs : WorkoutLoadInputs :=
  ⟨none, some [⟨0, 60000, 150⟩], some (-5), none, 30, none, none, none, none, none⟩

/-- Scoring inputs with heart-rate samples, `hrMax = 0`, and average and
resting heart rate supplied, used to exercise the TRIMP branch gate. -/
def zeroHrMaxTrimpInputs : WorkoutLoadInputs :=
  ⟨none, some [⟨0, 60000, 150⟩], some 0, none, 30, some 100, some 60, none, none, none⟩

/-- A zero-duration workout (adds no recovery hours) used in witnesses. -/
def zeroDurationWorkout : WorkoutSummary :=
  ⟨"w0", none, 0, 0, 0, createEmptyZones, 0⟩

lemma sampleMinutes_pos (s : HeartRateSample) : 0 < sampleMinutes s := by
  unfold sampleMinutes
  split_ifs with h
  · norm_num
  · exact lt_of_le_of_ne (le_max_left 0 _) (Ne.symm h)

lemma addSample_z5 (cfg : ZoneConfig) (acc : ZoneMinutes) (s : HeartRateSample) :
    (addSample cfg acc s).z5 = acc.z5 + (if inZone5 cfg s then sampleMinutes s else 0) := by
  unfold addSample inZone5
  split_ifs with h1 h2 h3 h4 h5 <;> simp_all <;> linarith

lemma addSample_z4 (cfg : ZoneConfig) (acc : ZoneMinutes) (s : HeartRateSample) :
    (addSample cfg acc s).z4 = acc.z4 + (if inZone4 cfg s then sampleMinutes s else 0) := by
  unfold addSample inZone4
  split_ifs with h1 h2 h3 h4 h5 <;> simp_all <;> linarith

lemma addSample_z3 (cfg : ZoneConfig) (acc : ZoneMinutes) (s : HeartRateSample) :
    (addSample cfg acc s).z3 = acc.z3 + (if inZone3 cfg s then sampleMinutes s else 0) := by
  unfold addSample inZone3
  split_ifs with h1 h2 h3 h4 h5 <;> simp_all <;> linarith

lemma addSample_z2 (cfg : ZoneConfig) (acc : ZoneMinutes) (s : HeartRateSample) :
    (addSample cfg acc s).z2 = acc.z2 + (if inZone2 cfg s then sampleMinutes s else 0) := by
  unfold addSample inZone2
  split_ifs with h1 h2 h3 h4 h5 <;> simp_all <;> linarith

lemma addSample_z1 (cfg : ZoneConfig) (acc : ZoneMinutes) (s : HeartRateSample) :
    (addSample cfg acc s).z1 = acc.z1 + (if inZone1 cfg s then sampleMinutes s else 0) := by
  unfold addSample inZone1
  split_ifs with h1 h2 h3 h4 h5 <;> simp_all <;> linarith

lemma totalZones_addSample (cfg : ZoneConfig) (acc : ZoneMinutes) (s : HeartRateSample) :
    totalZones (addSample cfg acc s)
      = totalZones acc + (if minFloor cfg ≤ s.value then sampleMinutes s else 0) := by
  unfold addSample totalZones minFloor
  split_ifs with h1 h2 h3 h4 h5 h6 <;> simp_all [min_le_iff, not_or] <;>
    try ring
  all_goals
    rcases ‹cfg.z5.1 ≤ s.value ∨ cfg.z4.1 ≤ s.value ∨ cfg.z3.1 ≤ s.value ∨ cfg.z2.1 ≤ s.value ∨ cfg.z1.1 ≤ s.value› with h | h | h | h | h <;> linarith

lemma foldl_addSample_z5 (cfg : ZoneConfig) :
    ∀ (l : List HeartRateSample) (acc : ZoneMinutes),
      (l.foldl (addSample cfg) acc).z5
        = acc.z5 + ((l.filter (inZone5 cfg)).map sampleMinutes).sum
  | [], acc => by simp
  | s :: t, acc => by
      rw [List.foldl_cons, foldl_addSample_z5 cfg t, addSample_z5, List.filter_cons]
      by_cases hp : inZone5 cfg s <;> simp [hp, add_assoc]

lemma foldl_addSample_z4 (cfg : ZoneConfig) :
    ∀ (l : List HeartRateSample) (acc : ZoneMinutes),
      (l.foldl (addSample cfg) acc).z4
        = acc.z4 + ((l.filter (inZone4 cfg)).map sampleMinutes).sum
  | [], acc => by simp
  | s :: t, acc => by
      rw [List.foldl_cons, foldl_addSample_z4 cfg t, addSample_z4, List.filter_cons]
      by_cases hp : inZone4 cfg s <;> simp [hp, add_assoc]

lemma foldl_addSample_z3 (cfg : ZoneConfig) :
    ∀ (l : List HeartRateSample) (acc : ZoneMinutes),
      (l.foldl (addSample cfg) acc).z3
        = acc.z3 + ((l.filter (inZone3 cfg)).map sampleMinutes).sum
  | [], acc => by simp
  | s :: t, acc => by
      rw [List.foldl_cons, foldl_addSample_z3 cfg t, addSample_z3, List.filter_cons]
      by_cases hp : inZone3 cfg s <;> simp [hp, add_assoc]

lemma foldl_addSample_z2 (cfg : ZoneConfig) :
    ∀ (l : List HeartRateSample) (acc : ZoneMinutes),
      (l.foldl (addSample cfg) acc).z2
        = acc.z2 + ((l.filter (inZone2 cfg)).map sampleMinutes).sum
  | [], acc => by simp
  | s :: t, acc => by
      rw [List.foldl_cons, foldl_addSample_z2 cfg t, addSample_z2, List.filter_cons]
      by_cases hp : inZone2 cfg s <;> simp [hp, add_assoc]

lemma foldl_addSample_z1 (cfg : ZoneConfig) :
    ∀ (l : List HeartRateSample) (acc : ZoneMinutes),
      (l.foldl (addSample cfg) acc).z1
        = acc.z1 + ((l.filter (inZone1 cfg)).map sampleMinutes).sum
  | [], acc => by simp
  | s :: t, acc => by
      rw [List.foldl_cons, foldl_addSample_z1 cfg t, addSample_z1, List.filter_cons]
      by_cases hp : inZone1 cfg s <;> simp [hp, add_assoc]

lemma totalZones_foldl (cfg : ZoneConfig) :
    ∀ (l : List HeartRateSample) (acc : ZoneMinutes),
      totalZones (l.foldl (addSample cfg) acc)
        = totalZones acc
          + ((l.filter (fun s => decide (minFloor cfg ≤ s.value))).map sampleMinutes).sum
  | [], acc => by simp
  | s :: t, acc => by
      rw [List.foldl_cons, totalZones_foldl cfg t, totalZones_addSample, List.filter_cons]
      by_cases hp : minFloor cfg ≤ s.value <;> simp [hp, add_assoc]

lemma sum_minutes_filter_le (p : HeartRateSample → Bool) :
    ∀ l : List HeartRateSample,
      ((l.filter p).map sampleMinutes).sum ≤ (l.map sampleMinutes).sum
  | [] => by simp
  | s :: t => by
      rw [List.filter_cons]
      by_cases hp : p s
      · simpa [hp] using add_le_add_left (sum_minutes_filter_le p t) (sampleMinutes s)
      · simp only [hp, if_neg, Bool.false_eq_true, ite_false, List.map_cons, List.sum_cons]
        exact le_add_of_nonneg_of_le (sampleMinutes_pos s).le (sum_minutes_filter_le p t)

lemma sum_minutes_filter_eq_iff (p : HeartRateSample → Bool) :
    ∀ l : List HeartRateSample,
      (((l.filter p).map sampleMinutes).sum = (l.map sampleMinutes).sum
        ↔ ∀ s ∈ l, p s = true)
  | [] => by simp
  | s :: t => by
      rw [List.filter_cons]
      by_cases hp : p s
      · simp only [hp, ite_true, List.map_cons, List.sum_cons, List.mem_cons]
        constructor
        · intro h x hx
          rcases hx with rfl | hx
          · exact hp
          · exact (sum_minutes_filter_eq_iff p t).1 (by linarith) x hx
        · intro h
          have := (sum_minutes_filter_eq_iff p t).2 (fun x hx => h x (Or.inr hx))
          linarith
      · simp only [hp, Bool.false_eq_true, ite_false, List.map_cons, List.sum_cons,
          List.mem_cons]
        constructor
        · intro h
          have hle := sum_minutes_filter_le p t
          have hpos := sampleMinutes_pos s
          linarith
        · intro h
          exact absurd (h s (Or.inl rfl)) (by simpa using hp)

lemma totalZones_empty : totalZones createEmptyZones = 0 := by
  norm_num [totalZones, createEmptyZones]

lemma zone_flags_exactly_one (cfg : ZoneConfig) (s : HeartRateSample) :
    (inZone5 cfg s).toNat + (inZone4 cfg s).toNat + (inZone3 cfg s).toNat
        + (inZone2 cfg s).toNat + (inZone1 cfg s).toNat
      = if minFloor cfg ≤ s.value then 1 else 0 := by
  unfold inZone5 inZone4 inZone3 inZone2 inZone1 minFloor
  by_cases h5 : cfg.z5.1 ≤ s.value <;> by_cases h4 : cfg.z4.1 ≤ s.value <;>
    by_cases h3 : cfg.z3.1 ≤ s.value <;> by_cases h2 : cfg.z2.1 ≤ s.value <;>
    by_cases h1 : cfg.z1.1 ≤ s.value <;>
    simp [h5, h4, h3, h2, h1, min_le_iff]

/-- C3 (amended): with a positive max HR, the total classified minutes are at
most the sum over all samples of the effective per-sample minutes (duration
floored at 0, with 1 substituted for 0), with equality exactly when no sample
falls below the lowest zone floor. -/
theorem C3_classified_minutes_bound (samples : List HeartRateSample) (hrMax : ℚ)
    (zoneConfig : Option ZoneConfig) (hpos : 0 < hrMax) :
    totalZones (calculateZoneMinutesFromSamples samples hrMax zoneConfig)
        ≤ (samples.map sampleMinutes).sum
    ∧ (totalZones (calculateZoneMinutesFromSamples samples hrMax zoneConfig)
          = (samples.map sampleMinutes).sum
        ↔ ∀ s ∈ samples, minFloor (resolveZoneConfig hrMax zoneConfig) ≤ s.value) := by
  unfold calculateZoneMinutesFromSamples
  rcases eq_or_ne samples [] with rfl | hne
  · simp [totalZones_empty]
  · rw [if_neg (by simp [hne, not_le.mpr hpos] : ¬(samples = [] ∨ hrMax ≤ 0))]
    rw [totalZones_foldl, totalZones_empty, zero_add]
    refine ⟨sum_minutes_filter_le _ samples, ?_⟩
    rw [sum_minutes_filter_eq_iff]
    simp

/-- C3 witness: a concrete one-minute 150 bpm sample with max HR 200. -/
theorem C3_classified_minutes_bound_witness :
    0 < (200 : ℚ)
    ∧ totalZones (calculateZoneMinutesFromSamples [sampleExample] 200 none)
        ≤ ([sampleExample].map sampleMinutes).sum :=
  ⟨by norm_num, (C3_classified_minutes_bound [sampleExample] 200 none (by norm_num)).1⟩

/-- C3 counterexample: a point sample (duration 0) is classified with a
substituted minute, so the classified total 1 exceeds the sum 0 of the raw
`max(0, end − start)` durations, refuting the claim's bound as stated. -/
theorem C3_point_sample_counterexample :
    ¬ (totalZones (calculateZoneMinutesFromSamples [⟨0, 0, 150⟩] 200 none)
        ≤ (([⟨0, 0, 150⟩] : List HeartRateSample).map
            (fun s => max 0 ((s.endDate - s.startDate) / 60000))).sum) := by
  norm_num [calculateZoneMinutesFromSamples, addSample, resolveZoneConfig,
    DEFAULT_ZONE_PERCENTAGES, sampleMinutes, createEmptyZones, totalZones, max_def]

/-- C4: each sample's entire effective duration goes to exactly one zone,
chosen by testing its bpm against the zone lower bounds from z5 down with
first match winning; samples below every floor are dropped; an empty sample
list or non-positive max HR yields all-zero zone minutes. -/
theorem C4_zone_classification (samples : List HeartRateSample) (hrMax : ℚ)
    (zoneConfig : Option ZoneConfig) :
    (calculateZoneMinutesFromSamples [] hrMax zoneConfig = createEmptyZones)
    ∧ (hrMax ≤ 0 → calculateZoneMinutesFromSamples samples hrMax zoneConfig = createEmptyZones)
    ∧ (0 < hrMax →
        (calculateZoneMinutesFromSamples samples hrMax zoneConfig).z5
            = ((samples.filter (inZone5 (resolveZoneConfig hrMax zoneConfig))).map
                sampleMinutes).sum
        ∧ (calculateZoneMinutesFromSamples samples hrMax zoneConfig).z4
            = ((samples.filter (inZone4 (resolveZoneConfig hrMax zoneConfig))).map
                sampleMinutes).sum
        ∧ (calculateZoneMinutesFromSamples samples hrMax zoneConfig).z3
            = ((samples.filter (inZone3 (resolveZoneConfig hrMax zoneConfig))).map
                sampleMinutes).sum
        ∧ (calculateZoneMinutesFromSamples samples hrMax zoneConfig).z2
            = ((samples.filter (inZone2 (resolveZoneConfig hrMax zoneConfig))).map
                sampleMinutes).sum
        ∧ (calculateZoneMinutesFromSamples samples hrMax zoneConfig).z1
            = ((samples.filter (inZone1 (resolveZoneConfig hrMax zoneConfig))).map
                sampleMinutes).sum)
    ∧ (∀ s : HeartRateSample,
        (inZone5 (resolveZoneConfig hrMax zoneConfig) s).toNat
            + (inZone4 (resolveZoneConfig hrMax zoneConfig) s).toNat
            + (inZone3 (resolveZoneConfig hrMax zoneConfig) s).toNat
            + (inZone2 (resolveZoneConfig hrMax zoneConfig) s).toNat
            + (inZone1 (resolveZoneConfig hrMax zoneConfig) s).toNat
          = if minFloor (resolveZoneConfig hrMax zoneConfig) ≤ s.value then 1 else 0) := by
  refine ⟨by simp [calculateZoneMinutesFromSamples], ?_, ?_, fun s => zone_flags_exactly_one _ s⟩
  · intro hle
    simp [calculateZoneMinutesFromSamples, hle]
  · intro hpos
    unfold calculateZoneMinutesFromSamples
    rcases eq_or_ne samples [] with rfl | hne
    · simp [createEmptyZones]
    · rw [if_neg (by simp [hne, not_le.mpr hpos] : ¬(samples = [] ∨ hrMax ≤ 0))]
      refine ⟨?_, ?_, ?_, ?_, ?_⟩
      · rw [foldl_addSample_z5]; simp [createEmptyZones]
      · rw [foldl_addSample_z4]; simp [createEmptyZones]
      · rw [foldl_addSample_z3]; simp [createEmptyZones]
      · rw [foldl_addSample_z2]; simp [createEmptyZones]
      · rw [foldl_addSample_z1]; simp [createEmptyZones]

lemma sleepModifierOf_pos (v : Option ℚ) (b : ℚ) : 0 < sleepModifierOf v b := by
  unfold sleepModifierOf
  rcases v with _ | x
  · norm_num
  · dsimp only
    split_ifs <;> norm_num

lemma hrvModifierOf_pos (v : Option ℚ) (b : ℚ) : 0 < hrvModifierOf v b := by
  unfold hrvModifierOf
  rcases v with _ | x
  · norm_num
  · dsimp only
    split_ifs <;> norm_num

lemma rhrModifierOf_pos (v : Option ℚ) (b : ℚ) : 0 < rhrModifierOf v b := by
  unfold rhrModifierOf
  rcases v with _ | x
  · norm_num
  · dsimp only
    split_ifs <;> norm_num

lemma learningModifierOf_pos (n : Nat) : 0 < learningModifierOf n := by
  unfold learningModifierOf
  split_ifs <;> norm_num

lemma effectiveRecoveryRate_pos (metrics : List DailyMetrics) :
    0 < effectiveRecoveryRate metrics := by
  unfold effectiveRecoveryRate BASE_RECOVERY_RATE_PER_HOUR
  exact mul_pos
    (mul_pos (mul_pos (mul_pos (by norm_num) (sleepModifierOf_pos _ _)) (hrvModifierOf_pos _ _))
      (rhrModifierOf_pos _ _))
    (learningModifierOf_pos _)

lemma crs_debtScore (now : ℚ) (prev : RecoveryState) (metrics : List DailyMetrics)
    (wk : Option WorkoutSummary) :
    (calculateNewRecoveryState now prev metrics wk).debtScore
      = max 0 (prev.debtScore
          - max 0 ((now - prev.timestamp) / 3600000) * effectiveRecoveryRate metrics)
        + ((wk.map (·.loadScore)).getD 0) := rfl

lemma crs_hours (now : ℚ) (prev : RecoveryState) (metrics : List DailyMetrics)
    (wk : Option WorkoutSummary) :
    (calculateNewRecoveryState now prev metrics wk).recoveryHoursRemaining
      = max 0 ((calculateNewRecoveryState now prev metrics wk).debtScore
          - DEBT_THRESHOLDS_YELLOW) / effectiveRecoveryRate metrics := rfl

lemma crs_readyAt (now : ℚ) (prev : RecoveryState) (metrics : List DailyMetrics)
    (wk : Option WorkoutSummary) :
    (calculateNewRecoveryState now prev metrics wk).readyForHardTrainingAt
      = if 0 < (calculateNewRecoveryState now prev metrics wk).recoveryHoursRemaining
        then some (now
          + (calculateNewRecoveryState now prev metrics wk).recoveryHoursRemaining * 3600000)
        else none := rfl

/-- C1: with no new workout, the updated debt is exactly
`max(0, previous − elapsedHours × effectiveRate)`, hence non-negative and at
most the previous debt, for arbitrary modifier values. -/
theorem C1_decay_formula (now : ℚ) (prev : RecoveryState) (metrics : List DailyMetrics)
    (hd : 0 ≤ prev.debtScore) :
    (calculateNewRecoveryState now prev metrics none).debtScore
        = max 0 (prev.debtScore
            - max 0 ((now - prev.timestamp) / 3600000) * effectiveRecoveryRate metrics)
    ∧ 0 ≤ (calculateNewRecoveryState now prev metrics none).debtScore
    ∧ (calculateNewRecoveryState now prev metrics none).debtScore ≤ prev.debtScore := by
  have h := crs_debtScore now prev metrics none
  simp only [Option.map_none', Option.getD_none, add_zero] at h
  refine ⟨h, ?_, ?_⟩
  · rw [h]; exact le_max_left 0 _
  · rw [h]
    exact max_le hd
      (sub_le_self _ (mul_nonneg (le_max_left 0 _) (effectiveRecoveryRate_pos metrics).le))

/-- C1 witness: debt 50, one hour elapsed, no metrics. -/
theorem C1_decay_formula_witness :
    0 ≤ prevStateExample.debtScore
    ∧ ((calculateNewRecoveryState 3600000 prevStateExample [] none).debtScore
          = max 0 (prevStateExample.debtScore
              - max 0 ((3600000 - prevStateExample.timestamp) / 3600000)
                * effectiveRecoveryRate [])
        ∧ 0 ≤ (calculateNewRecoveryState 3600000 prevStateExample [] none).debtScore
        ∧ (calculateNewRecoveryState 3600000 prevStateExample [] none).debtScore
            ≤ prevStateExample.debtScore) :=
  ⟨by norm_num [prevStateExample],
    C1_decay_formula 3600000 prevStateExample [] (by norm_num [prevStateExample])⟩

/-- C2: the returned status is the pure two-threshold function of the final
debt with inclusive upper bounds; the thresholds are ordered; and with
thresholds 20/80 the boundary values classify as green/yellow/yellow/red. -/
theorem C2_status_thresholds :
    (∀ (now : ℚ) (prev : RecoveryState) (metrics : List DailyMetrics)
        (wk : Option WorkoutSummary),
        (calculateNewRecoveryState now prev metrics wk).status
          = statusOf DEBT_THRESHOLDS_YELLOW DEBT_THRESHOLDS_RED
              (calculateNewRecoveryState now prev metrics wk).debtScore)
    ∧ DEBT_THRESHOLDS_YELLOW < DEBT_THRESHOLDS_RED
    ∧ statusOf 20 80 20 = Status.green
    ∧ statusOf 20 80 20.01 = Status.yellow
    ∧ statusOf 20 80 80 = Status.yellow
    ∧ statusOf 20 80 80.01 = Status.red := by
  refine ⟨fun now prev metrics wk => rfl, ?_, ?_, ?_, ?_, ?_⟩ <;>
    norm_num [statusOf, DEBT_THRESHOLDS_YELLOW, DEBT_THRESHOLDS_RED]

/-- C5: the effective recovery rate is provably positive (so the division by
it never hits zero), hours remaining equal `max(0, debt − yellow)/rate` and
vanish at or below the yellow threshold, and the ready-at timestamp is present
exactly for positive hours remaining, at `now + hours`. -/
theorem C5_recovery_hours (now : ℚ) (prev : RecoveryState) (metrics : List DailyMetrics)
    (wk : Option WorkoutSummary) :
    0 < effectiveRecoveryRate metrics
    ∧ (calculateNewRecoveryState now prev metrics wk).recoveryHoursRemaining
        = max 0 ((calculateNewRecoveryState now prev metrics wk).debtScore
            - DEBT_THRESHOLDS_YELLOW) / effectiveRecoveryRate metrics
    ∧ ((calculateNewRecoveryState now prev metrics wk).debtScore ≤ DEBT_THRESHOLDS_YELLOW
        → (calculateNewRecoveryState now prev metrics wk).recoveryHoursRemaining = 0)
    ∧ (0 < (calculateNewRecoveryState now prev metrics wk).recoveryHoursRemaining
        → (calculateNewRecoveryState now prev metrics wk).readyForHardTrainingAt
            = some (now
                + (calculateNewRecoveryState now prev metrics wk).recoveryHoursRemaining
                  * 3600000))
    ∧ ((calculateNewRecoveryState now prev metrics wk).recoveryHoursRemaining ≤ 0
        → (calculateNewRecoveryState now prev metrics wk).readyForHardTrainingAt = none) := by
  refine ⟨effectiveRecoveryRate_pos metrics, crs_hours now prev metrics wk, ?_, ?_, ?_⟩
  · intro h
    rw [crs_hours, max_eq_left (sub_nonpos.mpr h), zero_div]
  · intro h
    rw [crs_readyAt, if_pos h]
  · intro h
    rw [crs_readyAt, if_neg (not_lt.mpr h)]

/-- C7: TRIMP returns 0 for non-positive duration or heart-rate reserve, and
otherwise `duration × i × C1·e^(C2·i)` with the clamped heart-rate-reserve
intensity and sex-dependent constants, male being the default. -/
theorem C7_trimp_formula (d avg rest m : ℚ) (sex : Option Sex) :
    (d ≤ 0 ∨ m - rest ≤ 0 → calculateTrimpLoad d avg rest m sex = 0)
    ∧ (0 < d → 0 < m - rest →
        calculateTrimpLoad d avg rest m sex
          = (d : ℝ) * ((min 1 (max 0 ((avg - rest) / (m - rest))) : ℚ) : ℝ)
            * (if sex.getD Sex.male = Sex.female
               then (0.86 : ℝ)
                 * Real.exp (1.67 * ((min 1 (max 0 ((avg - rest) / (m - rest))) : ℚ) : ℝ))
               else (0.64 : ℝ)
                 * Real.exp (1.92 * ((min 1 (max 0 ((avg - rest) / (m - rest))) : ℚ) : ℝ))))
    ∧ calculateTrimpLoad d avg rest m none = calculateTrimpLoad d avg rest m (some Sex.male) := by
  refine ⟨?_, ?_, rfl⟩
  · intro h
    rw [calculateTrimpLoad, if_pos h]
  · intro h1 h2
    rw [calculateTrimpLoad, if_neg (by push_neg; exact ⟨h1, h2⟩)]

/-- C6 (amended): strategy selection follows the fixed precedence
zones → zones-from-samples → TRIMP → RPE, the result always carries the
method, load and zone minutes, and the RPE fallback computes
`duration × (RPE/10) × 10 × sportMultiplier` for positive duration (0 for
non-positive duration), with RPE defaulting to 5 and the multiplier looked
up by lower-cased type, ~0.85 for unmatched types. -/
theorem C6_scoring_precedence (inputs : WorkoutLoadInputs) :
    (∀ zm, inputs.zoneMinutes = some zm →
      calculateWorkoutLoadFromInputs inputs
        = ⟨((calculateWorkoutLoad zm : ℚ) : ℝ), zm, Method.zones⟩)
    ∧ (∀ ss h, inputs.zoneMinutes = none → inputs.heartRateSamples = some ss →
        inputs.hrMax = some h → h ≠ 0 →
        calculateWorkoutLoadFromInputs inputs
          = ⟨((calculateWorkoutLoad
                (calculateZoneMinutesFromSamples ss h inputs.zoneConfig) : ℚ) : ℝ),
              calculateZoneMinutesFromSamples ss h inputs.zoneConfig, Method.zones⟩)
    ∧ (∀ a r m, inputs.zoneMinutes = none →
        (inputs.heartRateSamples = none ∨ inputs.hrMax.getD 0 = 0) →
        inputs.avgHeartRate = some a → inputs.restingHeartRate = some r →
        inputs.hrMax = some m →
        calculateWorkoutLoadFromInputs inputs
          = ⟨calculateTrimpLoad inputs.durationMinutes a r m inputs.sex, createEmptyZones,
              Method.trimp⟩)
    ∧ (inputs.zoneMinutes = none →
        (inputs.heartRateSamples = none ∨ inputs.hrMax.getD 0 = 0) →
        (inputs.avgHeartRate = none ∨ inputs.restingHeartRate = none ∨ inputs.hrMax = none) →
        calculateWorkoutLoadFromInputs inputs
          = ⟨((calculateRpeLoad inputs.durationMinutes (inputs.rpe.getD DEFAULT_RPE)
                inputs.workoutType : ℚ) : ℝ), createEmptyZones, Method.rpe⟩)
    ∧ (∀ (d rpe : ℚ) (ty : Option String), 0 < d →
        calculateRpeLoad d rpe ty = d * (rpe / 10) * 10 * resolveSportMultiplier ty)
    ∧ (∀ (d rpe : ℚ) (ty : Option String), d ≤ 0 → calculateRpeLoad d rpe ty = 0)
    ∧ (∀ t : String, resolveSportMultiplier (some t)
        = (SPORT_MULTIPLIERS t.toLower).getD SPORT_MULTIPLIERS_default)
    ∧ resolveSportMultiplier none = SPORT_MULTIPLIERS_default
    ∧ SPORT_MULTIPLIERS_default = 0.85
    ∧ DEFAULT_RPE = 5 := by
  obtain ⟨zmIn, hrsIn, hmIn, zcIn, dIn, avgIn, restIn, sexIn, rpeIn, tyIn⟩ := inputs
  refine ⟨?_, ?_, ?_, ?_, ?_, ?_, fun t => rfl, rfl, rfl, rfl⟩
  · intro zm hzm
    simp only at hzm
    subst hzm
    rfl
  · intro ss h hzm hss hm hne
    simp only at hzm hss hm
    subst hzm hss hm
    simp [calculateWorkoutLoadFromInputs, hne]
  · intro a r m hzm hgate havg hrest hm
    simp only at hzm havg hrest hm
    subst hzm havg hrest hm
    rcases hgate with hss | hm0
    · simp only at hss
      subst hss
      simp [calculateWorkoutLoadFromInputs]
    · simp only [Option.getD_some] at hm0
      subst hm0
      simp [calculateWorkoutLoadFromInputs]
  · intro hzm hgate hnone
    simp only at hzm
    subst hzm
    have hgfalse : ¬(hrsIn.isSome ∧ hmIn.getD 0 ≠ 0) := by
      rcases hgate with hss | hm0
      · simp only at hss; subst hss; simp
      · simp only at hm0; simp [hm0]
    have htfalse : ¬(avgIn.isSome ∧ restIn.isSome ∧ hmIn.isSome) := by
      rcases hnone with h | h | h <;> simp only at h <;> subst h <;> simp
    simp [calculateWorkoutLoadFromInputs, hgfalse, htfalse]
  · intro d rpe ty hd
    rw [calculateRpeLoad, if_neg (not_le.mpr hd)]
  · intro d rpe ty hd
    rw [calculateRpeLoad, if_pos hd]

/-- C6 counterexample: with only a negative duration supplied the RPE fallback
returns 0, while the claim's unguarded formula
`duration × (RPE/10) × 10 × multiplier` gives a nonzero (negative) value. -/
theorem C6_rpe_guard_counterexample :
    (calculateWorkoutLoadFromInputs rpeOnlyInputs).loadScore = 0
    ∧ ((-10 : ℝ) * ((5 : ℝ) / 10) * 10 * (0.85 : ℝ) ≠ 0) := by
  constructor
  · simp [calculateWorkoutLoadFromInputs, rpeOnlyInputs, calculateRpeLoad]
  · norm_num

/-- C10 (amended): with samples present, no explicit zone minutes and `hrMax`
absent or 0, the zones method is never selected; with `hrMax = 0` and average
and resting heart rate supplied the TRIMP branch runs, returning load 0
whenever the resting heart rate is non-negative (the reserve `0 − rest` is
then non-positive); with any of the three TRIMP inputs absent the RPE
fallback runs. -/
theorem C10_hrmax_gate (inputs : WorkoutLoadInputs) (ss : List HeartRateSample)
    (h1 : inputs.zoneMinutes = none) (h2 : inputs.heartRateSamples = some ss)
    (h3 : inputs.hrMax = none ∨ inputs.hrMax = some 0) :
    (calculateWorkoutLoadFromInputs inputs).method ≠ Method.zones
    ∧ (∀ a r, inputs.hrMax = some 0 → inputs.avgHeartRate = some a →
        inputs.restingHeartRate = some r →
        (calculateWorkoutLoadFromInputs inputs).method = Method.trimp
        ∧ (0 ≤ r → (calculateWorkoutLoadFromInputs inputs).loadScore = 0))
    ∧ ((inputs.hrMax = none ∨ inputs.avgHeartRate = none ∨ inputs.restingHeartRate = none) →
        (calculateWorkoutLoadFromInputs inputs).method = Method.rpe) := by
  obtain ⟨zmIn, hrsIn, hmIn, zcIn, dIn, avgIn, restIn, sexIn, rpeIn, tyIn⟩ := inputs
  simp only at h1 h2
  subst h1 h2
  have hm0 : hmIn.getD 0 = 0 := by
    rcases h3 with hm | hm <;> simp only at hm <;> subst hm <;> rfl
  refine ⟨?_, ?_, ?_⟩
  · by_cases ht : avgIn.isSome ∧ restIn.isSome ∧ hmIn.isSome
    · simp [calculateWorkoutLoadFromInputs, hm0, ht]
    · simp [calculateWorkoutLoadFromInputs, hm0, ht]
  · intro a r hm havg hrest
    simp only at hm havg hrest
    subst hm havg hrest
    constructor
    · simp [calculateWorkoutLoadFromInputs]
    · intro hr
      simp [calculateWorkoutLoadFromInputs]
      rw [calculateTrimpLoad, if_pos (Or.inr (by linarith))]
  · intro hnone
    have htfalse : ¬(avgIn.isSome ∧ restIn.isSome ∧ hmIn.isSome) := by
      rcases hnone with h | h | h <;> simp only at h <;> subst h <;> simp
    simp [calculateWorkoutLoadFromInputs, hm0, htfalse]

/-- C10 witness: `hrMax = 0`, average 100 and resting 60 supplied: the TRIMP
branch runs and returns load 0. -/
theorem C10_hrmax_gate_witness :
    (calculateWorkoutLoadFromInputs zeroHrMaxTrimpInputs).method = Method.trimp
    ∧ (calculateWorkoutLoadFromInputs zeroHrMaxTrimpInputs).loadScore = 0 := by
  have h := C10_hrmax_gate zeroHrMaxTrimpInputs [⟨0, 60000, 150⟩] rfl rfl (Or.inr rfl)
  exact ⟨(h.2.1 100 60 rfl rfl rfl).1, (h.2.1 100 60 rfl rfl rfl).2 (by norm_num)⟩

/-- C10 counterexample: a negative `hrMax` is truthy, so the zones branch IS
taken and returns the classifier's all-zero zone minutes — the non-positive
max-HR guard of the classifier is reachable through the scorer, refuting the
claim's unreachability clause. -/
theorem C10_negative_hrmax_counterexample :
    (calculateWorkoutLoadFromInputs negativeHrMaxInputs).method = Method.zones
    ∧ (calculateWorkoutLoadFromInputs negativeHrMaxInputs).zoneMinutes = createEmptyZones
    ∧ (calculateWorkoutLoadFromInputs negativeHrMaxInputs).loadScore = 0 := by
  refine ⟨?_, ?_, ?_⟩ <;>
    norm_num [calculateWorkoutLoadFromInputs, negativeHrMaxInputs,
      calculateZoneMinutesFromSamples, calculateWorkoutLoad, createEmptyZones,
      HR_ZONE_WEIGHTS]

lemma foldl_add_eq (f : WorkoutSummary → ℝ) :
    ∀ (l : List WorkoutSummary) (a : ℝ),
      l.foldl (fun sum w => sum + f w) a = a + (l.map f).sum
  | [], a => by simp
  | w :: t, a => by
      rw [List.foldl_cons, foldl_add_eq f t, List.map_cons, List.sum_cons]
      ring

/-- C8: remaining EPOC recovery sums, over exactly the workouts ending at or
after the cutoff, the per-workout `max(0, added − hoursSince × modifier)` —
floored individually before summing (so the total is non-negative and a fully
decayed workout contributes exactly 0), and the per-workout added hours are 0
for non-positive vo2Max or k. -/
theorem C8_epoc_remaining (now : ℚ) (workouts : List WorkoutSummary) (since modifier : ℚ)
    (config : EpocConfig) :
    estimateRecoveryRemaining now workouts since modifier config
        = ((workouts.filter (fun w => decide (since ≤ w.endTime))).map
            (fun w => max 0 (estimateRecoveryHoursAdded w config
              - ((max 0 ((now - w.endTime) / 3600000) : ℚ) : ℝ) * (modifier : ℝ)))).sum
    ∧ (∀ w : WorkoutSummary, since ≤ w.endTime →
        estimateRecoveryHoursAdded w config
            ≤ ((max 0 ((now - w.endTime) / 3600000) : ℚ) : ℝ) * (modifier : ℝ) →
        estimateRecoveryRemaining now [w] since modifier config = 0)
    ∧ (config.vo2Max ≤ 0 ∨ config.k ≤ 0 →
        ∀ w : WorkoutSummary, estimateRecoveryHoursAdded w config = 0)
    ∧ 0 ≤ estimateRecoveryRemaining now workouts since modifier config := by
  have hsum : ∀ l : List WorkoutSummary,
      estimateRecoveryRemaining now l since modifier config
        = ((l.filter (fun w => decide (since ≤ w.endTime))).map
            (fun w => max 0 (estimateRecoveryHoursAdded w config
              - ((max 0 ((now - w.endTime) / 3600000) : ℚ) : ℝ) * (modifier : ℝ)))).sum := by
    intro l
    rw [estimateRecoveryRemaining, foldl_add_eq, zero_add]
  refine ⟨hsum workouts, ?_, ?_, ?_⟩
  · intro w hw hle
    rw [hsum [w]]
    simp only [List.filter_cons, List.filter_nil, decide_eq_true_eq, hw, if_pos,
      List.map_cons, List.map_nil, List.sum_cons, List.sum_nil, add_zero]
    exact max_eq_left (sub_nonpos.mpr hle)
  · intro h w
    rw [estimateRecoveryHoursAdded, if_pos h]
  · rw [hsum workouts]
    apply List.sum_nonneg
    intro x hx
    simp only [List.mem_map] at hx
    obtain ⟨w, -, rfl⟩ := hx
    exact le_max_left 0 _

/-- C9: the stress factor is `clamp(1 − recentLoad/300, 0.2, 1)` with
`recentLoad` the sum of load scores of workouts started in the last 3 days,
and the final modifier is the unweighted mean of the four factors. -/
theorem C9_recovery_modifier (now : ℚ) (dailyMetrics : List DailyMetrics)
    (workoutSummaries : List WorkoutSummary) :
    (calculateRecoveryModifier now dailyMetrics workoutSummaries).stressFactor
        = clampQ (1 - recentLoadOf (now - 3 * 86400000) workoutSummaries / STRESS_LOAD_CAP)
            0.2 1
    ∧ recentLoadOf (now - 3 * 86400000) workoutSummaries
        = ((workoutSummaries.filter (fun w => decide (now - 3 * 86400000 ≤ w.startTime))).map
            (·.loadScore)).sum
    ∧ (calculateRecoveryModifier now dailyMetrics workoutSummaries).modifier
        = ((calculateRecoveryModifier now dailyMetrics workoutSummaries).sleepFactor
            + (calculateRecoveryModifier now dailyMetrics workoutSummaries).hrvFactor
            + (calculateRecoveryModifier now dailyMetrics workoutSummaries).rhrFactor
            + (calculateRecoveryModifier now dailyMetrics workoutSummaries).stressFactor) / 4
    ∧ STRESS_LOAD_CAP = 300 :=
  ⟨rfl, rfl, rfl, rfl⟩
